import Mathlib

/-!
Verification of the AEGIS license server core (issuer and verifier) against
its specification.

The development shallowly embeds the Python sources:

- `src/server/services.py` (`LicenseService.issue_license`,
  `LicenseService.generate_instance_fingerprint`) and the equivalent
  `src/poc/issue_license.py` (`LicenseIssuer.issue_license`);
- `src/odoo/addons/aegis_client/models/license_verifier.py`
  (`LicenseVerifier.verify_license`, `LicenseVerifier.get_license_info`,
  `LicenseVerifier._generate_fingerprint`).

Modelling conventions:

- Machine integers are `Nat`/`Int`; SHA-256 words are `Nat` reduced mod 2^32.
- Timestamps are integral seconds (`int(datetime.now(timezone.utc).timestamp())`
  in the source truncates to whole seconds; `timedelta(days=d)` is `d * 86400`
  seconds).
- A JWS compact token either fails to decode (`Token.malformed`) or determines
  a claims payload plus an Ed25519 signature.  Ed25519 signatures are
  deterministic, so a signature is modelled symbolically as the pair of the
  signing key (a `Nat` identifier standing for the key pair) and the signed
  message; verification against public key `k` succeeds exactly when the token
  was signed by key pair `k` (correctness and unforgeability of Ed25519 are
  assumed by the source, which delegates to the `cryptography` library).
- The decoded claims dictionary is typed (`Payload` below): claims the code
  reads are fields, a claim that may be missing is an `Option`.  PyJWT's
  `payload.get(claim) is None` required-claim test therefore becomes an
  `Option.isNone` test.  `module_info.get("allowed_major_versions", [])`
  defaults a missing list to `[]`, so the model stores the list directly
  (a missing key and an empty list are indistinguishable to the verifier).
- Python truthiness tests in the sources (`if instance_fingerprint:`,
  `if not instance_db_uuid`, `not payload.get("exp")`) are modelled exactly:
  a string is falsy iff it is absent or empty, an int is falsy iff it is
  absent or zero.
-/

/-! ### SHA-256 (hashlib.sha256, hexdigest), words as Nat mod 2^32 -/

def w32 : Nat := 4294967296

def rotr32 (n x : Nat) : Nat := ((x >>> n) ||| (x <<< (32 - n))) % w32

def shaK : List Nat :=
  [1116352408, 1899447441, 3049323471, 3921009573, 961987163,
   1508970993, 2453635748, 2870763221, 3624381080, 310598401,
   607225278, 1426881987, 1925078388, 2162078206, 2614888103,
   3248222580, 3835390401, 4022224774, 264347078, 604807628,
   770255983, 1249150122, 1555081692, 1996064986, 2554220882,
   2821834349, 2952996808, 3210313671, 3336571891, 3584528711,
   113926993, 338241895, 666307205, 773529912, 1294757372,
   1396182291, 1695183700, 1986661051, 2177026350, 2456956037,
   2730485921, 2820302411, 3259730800, 3345764771, 3516065817,
   3600352804, 4094571909, 275423344, 430227734, 506948616,
   659060556, 883997877, 958139571, 1322822218, 1537002063,
   1747873779, 1955562222, 2024104815, 2227730452, 2361852424,
   2428436474, 2756734187, 3204031479, 3329325298]

def shaH0 : List Nat :=
  [1779033703, 3144134277, 1013904242, 2773480762, 1359893119,
   2600822924, 528734635, 1541459225]

def shaPad (msg : List Nat) : List Nat :=
  let len := msg.length
  let bitLen := len * 8
  let zeros := (119 - len % 64) % 64
  msg ++ [0x80] ++ List.replicate zeros 0 ++
    [(bitLen >>> 56) % 256, (bitLen >>> 48) % 256, (bitLen >>> 40) % 256, (bitLen >>> 32) % 256,
     (bitLen >>> 24) % 256, (bitLen >>> 16) % 256, (bitLen >>> 8) % 256, bitLen % 256]

def toWords : List Nat → List Nat
  | a :: b :: c :: d :: rest => (((a * 256 + b) * 256 + c) * 256 + d) :: toWords rest
  | _ => []

def chunk16 : List Nat → List (List Nat)
  | w0 :: w1 :: w2 :: w3 :: w4 :: w5 :: w6 :: w7 :: w8 :: w9 ::
    w10 :: w11 :: w12 :: w13 :: w14 :: w15 :: rest =>
      [w0, w1, w2, w3, w4, w5, w6, w7, w8, w9, w10, w11, w12, w13, w14, w15] :: chunk16 rest
  | _ => []

def ssig0 (x : Nat) : Nat := (rotr32 7 x) ^^^ (rotr32 18 x) ^^^ (x >>> 3)
def ssig1 (x : Nat) : Nat := (rotr32 17 x) ^^^ (rotr32 19 x) ^^^ (x >>> 10)
def bsig0 (x : Nat) : Nat := (rotr32 2 x) ^^^ (rotr32 13 x) ^^^ (rotr32 22 x)
def bsig1 (x : Nat) : Nat := (rotr32 6 x) ^^^ (rotr32 11 x) ^^^ (rotr32 25 x)

def stepW (w : List Nat) : List Nat :=
  let t := w.length
  w ++ [(ssig1 (w.getD (t - 2) 0) + w.getD (t - 7) 0 +
         ssig0 (w.getD (t - 15) 0) + w.getD (t - 16) 0) % w32]

def iterN {α : Type} (f : α → α) : Nat → α → α
  | 0, a => a
  | n + 1, a => iterN f n (f a)

def compressRound (st : List Nat) (kw : Nat × Nat) : List Nat :=
  match st with
  | [a, b, c, d, e, f, g, h] =>
    let ch := (e &&& f) ^^^ ((e ^^^ 4294967295) &&& g)
    let maj := (a &&& b) ^^^ (a &&& c) ^^^ (b &&& c)
    let t1 := (h + bsig1 e + ch + kw.1 + kw.2) % w32
    let t2 := (bsig0 a + maj) % w32
    [(t1 + t2) % w32, a, b, c, (d + t1) % w32, e, f, g]
  | other => other

def compressBlock (h : List Nat) (block : List Nat) : List Nat :=
  let w := iterN stepW 48 block
  let st := (shaK.zip w).foldl compressRound h
  (h.zip st).map (fun p => (p.1 + p.2) % w32)

def utf8Bytes (c : Char) : List Nat :=
  let n := c.toNat
  if n < 0x80 then [n]
  else if n < 0x800 then [0xC0 ||| (n >>> 6), 0x80 ||| (n &&& 0x3F)]
  else if n < 0x10000 then
    [0xE0 ||| (n >>> 12), 0x80 ||| ((n >>> 6) &&& 0x3F), 0x80 ||| (n &&& 0x3F)]
  else
    [0xF0 ||| (n >>> 18), 0x80 ||| ((n >>> 12) &&& 0x3F), 0x80 ||| ((n >>> 6) &&& 0x3F),
     0x80 ||| (n &&& 0x3F)]

def strBytes (s : String) : List Nat := (s.data.map utf8Bytes).flatten

def hexDigit (n : Nat) : Char :=
  if n < 10 then Char.ofNat (48 + n) else Char.ofNat (87 + n)

def wordHex (w : Nat) : List Char :=
  [hexDigit ((w >>> 28) % 16), hexDigit ((w >>> 24) % 16), hexDigit ((w >>> 20) % 16),
   hexDigit ((w >>> 16) % 16), hexDigit ((w >>> 12) % 16), hexDigit ((w >>> 8) % 16),
   hexDigit ((w >>> 4) % 16), hexDigit (w % 16)]

def sha256hex (s : String) : String :=
  let blocks := chunk16 (toWords (shaPad (strBytes s)))
  let hfin := blocks.foldl compressBlock shaH0
  String.mk (hfin.map wordHex).flatten

/-- Sanity anchor: the implementation reproduces the FIPS 180-4 test vector
for the message "abc". -/
theorem sha256hex_abc :
    sha256hex "abc" = "ba7816bf8f01cfea414140de5dae2223b00361a396177a9cb410ff61f20015ad" := by
  decide

/-! ### Instance fingerprint

Source: `LicenseService.generate_instance_fingerprint` in
`src/server/services.py` and the identical
`LicenseVerifier._generate_fingerprint` in
`src/odoo/addons/aegis_client/models/license_verifier.py`:
hex(sha256(db_uuid + ":" + domain)) prefixed with the algorithm tag. -/

def generate_instance_fingerprint (db_uuid domain : String) : String :=
  "sha256:" ++ sha256hex (db_uuid ++ ":" ++ domain)

/-! ### The decoded claims payload -/

/-- The nested "customer" object of the claims payload. -/
structure CustomerInfo where
  id : String
  name : String
deriving DecidableEq, Repr

/-- The nested "module" object of the claims payload.  The verifier reads
`module_info.get("technical_name")` (may be missing) and
`module_info.get("allowed_major_versions", [])` (missing defaults to the empty
list, so the list is stored directly). -/
structure ModuleInfo where
  technical_name : Option String
  allowed_major_versions : List String
deriving DecidableEq, Repr

/-- The decoded JWT claims dictionary, typed.  Fields the code may find absent
are `Option`s; `jwt.encode`/`jwt.decode` never reorders or drops claims, so a
round trip through the wire format is the identity on this record. -/
structure Payload where
  jti : Option String
  iss : Option String
  iat : Option Int
  exp : Option Int
  customer : Option CustomerInfo
  module : Option ModuleInfo
  license_type : Option String
  instance_fingerprint : Option String
deriving DecidableEq, Repr

/-- Reads `payload.get("module", {}).get("technical_name")`. -/
def moduleTechnicalName (p : Payload) : Option String :=
  match p.module with
  | none => none
  | some m => m.technical_name

/-- Reads `payload.get("module", {}).get("allowed_major_versions", [])`. -/
def moduleAllowedVersions (p : Payload) : List String :=
  match p.module with
  | none => []
  | some m => m.allowed_major_versions

/-- A compact JWS token as seen by `jwt.decode`: either the three-segment
structure or signature is bad (grouped as `malformed` / signature mismatch
below), or it decodes to a payload signed by the key pair `sigKeyId`. -/
inductive Token where
  | malformed
  | signed (payload : Payload) (sigKeyId : Nat)
deriving DecidableEq, Repr

/-! ### The verifier (`LicenseVerifier.verify_license`)

Each constructor corresponds to one distinct failure message raised by
`verify_license`; the spec's names for them are noted. -/

inductive VerifyError where
  /-- Spec `Malformed`: `jwt.DecodeError`, "License decode error". -/
  | malformedToken
  /-- Spec `InvalidSignature`: "Invalid license signature - possible tampering". -/
  | invalidSignature
  /-- Spec `Malformed`: `jwt.MissingRequiredClaimError` for a claim in the
  `require` list, surfaced as "Invalid license token". -/
  | missingRequiredClaim (name : String)
  /-- Spec `Expired`: "License has expired". -/
  | expired
  /-- Spec `UntrustedIssuer`: "Invalid issuer". -/
  | invalidIssuer
  /-- Spec `ProductMismatch`: "License is for module X, not Y". -/
  | moduleMismatch
  /-- Spec `VersionNotAllowed`: "Odoo version X not allowed". -/
  | versionNotAllowed
  /-- Spec `BindingContextMissing`: "License is bound to an instance, but
  instance details not provided". -/
  | bindingContextMissing
  /-- Spec `InstanceMismatch`: "Instance fingerprint mismatch". -/
  | fingerprintMismatch
  /-- Spec `PolicyViolation`: "Demo license must have expiration". -/
  | demoWithoutExpiration
deriving DecidableEq, Repr

/-- Manual expiry test of `verify_license`: run only when the claim is
present (`if "exp" in payload`), fails when `now >= exp`. -/
def expiredAt (exp : Option Int) (now : Int) : Bool :=
  match exp with
  | none => false
  | some e => decide (now ≥ e)

/-- Python truthiness of `payload.get("exp")` as used by the demo-policy
check `not payload.get("exp")`: falsy iff absent or zero. -/
def expFalsy (exp : Option Int) : Bool :=
  match exp with
  | none => true
  | some e => decide (e = 0)

/-- Verifier construction state: the configured public key and the expected
issuer string (`LicenseVerifier.__init__`). -/
structure LicenseVerifier where
  publicKeyId : Nat
  expected_issuer : String
deriving DecidableEq, Repr

/-- Shallow embedding of `LicenseVerifier.verify_license` (the POC verifier in
`src/poc/verify_license.py` is check-for-check identical).  `now` is the one
wall-clock read `datetime.now(timezone.utc).timestamp()`.  The
`instance_db_uuid` / `instance_domain` parameters default to `None` in the
source; Python string truthiness makes `none` and `some ""` both "not
provided". -/
def verify_license (v : LicenseVerifier) (license_token : Token)
    (module_name odoo_version : String)
    (instance_db_uuid instance_domain : Option String) (now : Int) :
    Except VerifyError Payload :=
  match license_token with
  | .malformed => .error .malformedToken
  | .signed payload sigKeyId =>
    if sigKeyId ≠ v.publicKeyId then .error .invalidSignature
    else if payload.jti = none then .error (.missingRequiredClaim "jti")
    else if payload.iss = none then .error (.missingRequiredClaim "iss")
    else if payload.iat = none then .error (.missingRequiredClaim "iat")
    else if expiredAt payload.exp now then .error .expired
    else if payload.iss ≠ some v.expected_issuer then .error .invalidIssuer
    else if moduleTechnicalName payload ≠ some module_name then .error .moduleMismatch
    else if odoo_version ∉ moduleAllowedVersions payload then .error .versionNotAllowed
    else
      match payload.instance_fingerprint with
      | some fp =>
        match instance_db_uuid, instance_domain with
        | some dbu, some dom =>
          if dbu = "" ∨ dom = "" then .error .bindingContextMissing
          else if fp ≠ generate_instance_fingerprint dbu dom then .error .fingerprintMismatch
          else if payload.license_type = some "demo" ∧ expFalsy payload.exp then
            .error .demoWithoutExpiration
          else .ok payload
        | _, _ => .error .bindingContextMissing
      | none =>
        if payload.license_type = some "demo" ∧ expFalsy payload.exp then
          .error .demoWithoutExpiration
        else .ok payload

/-- Shallow embedding of `LicenseVerifier.get_license_info`: decodes with
`verify_signature: False` — the signing key is ignored entirely — and returns
the display record.  The ISO-8601 rendering `_format_timestamp` is an
injective formatting of the integer timestamp and is abstracted to the
timestamp itself. -/
structure LicenseInfo where
  license_id : Option String
  customer : Option CustomerInfo
  module : Option ModuleInfo
  license_type : Option String
  issued_at : Option Int
  expires_at : Option Int
  is_bound : Bool
deriving DecidableEq, Repr

def get_license_info : Token → Except String LicenseInfo
  | .malformed => .error "Failed to decode license"
  | .signed p _ =>
    .ok { license_id := p.jti
          customer := p.customer
          module := p.module
          license_type := p.license_type
          issued_at := p.iat
          expires_at := p.exp
          is_bound := p.instance_fingerprint.isSome }

/-! ### The issuer (`LicenseService.issue_license`)

`src/poc/issue_license.py` differs only in generating `license_id` itself;
the validation, payload construction and signing are identical. -/

inductive IssueError where
  /-- ValueError "Invalid license_type" (spec `InvalidParameters`). -/
  | invalidLicenseType
  /-- ValueError "... licenses require duration_days" (spec `InvalidParameters`). -/
  | durationRequired
deriving DecidableEq, Repr

/-- Parameters of `LicenseService.issue_license`. -/
structure IssueParams where
  license_id : String
  customer_id : String
  customer_name : String
  module_name : String
  allowed_versions : List String
  license_type : String
  duration_days : Option Int
  instance_fingerprint : Option String
deriving DecidableEq, Repr

def secondsPerDay : Int := 86400

/-- Expiry computed by the issuer: `now + timedelta(days=duration_days)` for
subscription and demo kinds, omitted otherwise. -/
def issuanceExpiry (now : Int) (p : IssueParams) : Option Int :=
  if p.license_type ∈ ["subscription", "demo"] then
    p.duration_days.map (fun d => now + d * secondsPerDay)
  else none

/-- The claim set built by `issue_license`.  The fingerprint claim is added
under `if instance_fingerprint:` — Python truthiness — so an empty string is
omitted like `None`. -/
def issuedPayload (issuer : String) (now : Int) (p : IssueParams) : Payload :=
  { jti := some p.license_id
    iss := some issuer
    iat := some now
    exp := issuanceExpiry now p
    customer := some ⟨p.customer_id, p.customer_name⟩
    module := some ⟨some p.module_name, p.allowed_versions⟩
    license_type := some p.license_type
    instance_fingerprint :=
      match p.instance_fingerprint with
      | some fp => if fp = "" then none else some fp
      | none => none }

/-- Shallow embedding of `LicenseService.issue_license`.  `keyId` identifies
the Ed25519 private key loaded at construction, `issuer` is
`settings.license_issuer`, `now` the single clock read. -/
def issue_license (keyId : Nat) (issuer : String) (now : Int) (p : IssueParams) :
    Except IssueError Token :=
  if p.license_type ∉ ["perpetual", "subscription", "demo"] then .error .invalidLicenseType
  else if p.license_type ∈ ["subscription", "demo"] ∧ p.duration_days = none then
    .error .durationRequired
  else .ok (.signed (issuedPayload issuer now p) keyId)

/-! ### Wire serialization and signing (`jwt.encode`)

PyJWT serializes the claims dict with
`json.dumps(payload, separators=(",", ":"))` — compact separators, **no**
`sort_keys` — so the byte string preserves the dict's insertion order.  The
JWS signing input is `base64url(header) + "." + base64url(payload_json)`;
the header is fixed per service (`alg`, `kid`) and base64url is injective, so
the Ed25519 signature is a deterministic function of the signing key and the
serialized payload JSON.  The value type below covers exactly the shapes the
issuer places in the payload (strings, ints, string lists, flat objects of
those); string escaping is modelled for the quote and backslash, the only
escapes these values can need. -/

inductive PLeaf where
  | str (s : String)
  | num (n : Int)
  | strList (l : List String)
deriving DecidableEq, Repr

inductive PVal where
  | leaf (l : PLeaf)
  | obj (fields : List (String × PLeaf))
deriving DecidableEq, Repr

def escChar (c : Char) : List Char :=
  if c = '"' then ['\\', '"']
  else if c = '\\' then ['\\', '\\']
  else [c]

def jsonStr (s : String) : String :=
  "\"" ++ String.mk (s.data.map escChar).flatten ++ "\""

def dumpLeaf : PLeaf → String
  | .str s => jsonStr s
  | .num n => toString n
  | .strList l => "[" ++ String.intercalate "," (l.map jsonStr) ++ "]"

def dumpPVal : PVal → String
  | .leaf l => dumpLeaf l
  | .obj fs =>
    "\x7b" ++ String.intercalate "," (fs.map (fun kv => jsonStr kv.1 ++ ":" ++ dumpLeaf kv.2)) ++
      "\x7d"

/-- Compact `json.dumps` of the claims dict, in insertion order. -/
def jsonDumpsObj (fields : List (String × PVal)) : String :=
  "\x7b" ++ String.intercalate "," (fields.map (fun kv => jsonStr kv.1 ++ ":" ++ dumpPVal kv.2)) ++
    "\x7d"

/-- A (deterministic) Ed25519 JWS signature, symbolically: the signing key
and the serialized payload the signature covers. -/
structure Ed25519Sig where
  keyId : Nat
  message : String
deriving DecidableEq, Repr

/-- The signature `jwt.encode(payload, private_key, algorithm="EdDSA", ...)`
attaches to a claims dict serialized as `fields`. -/
def jwt_encode_sig (keyId : Nat) (fields : List (String × PVal)) : Ed25519Sig :=
  ⟨keyId, jsonDumpsObj fields⟩

/-- The claims dict built by `issue_license`, as the ordered field list Python
inserts: jti, iss, iat, customer, module, license_type, then exp when present,
then instance_fingerprint when present. -/
def issuancePayloadFields (license_id issuer : String) (issued_at : Int)
    (customer_id customer_name module_name : String) (allowed_versions : List String)
    (license_type : String) (expires_at : Option Int) (fp : Option String) :
    List (String × PVal) :=
  [("jti", .leaf (.str license_id)),
   ("iss", .leaf (.str issuer)),
   ("iat", .leaf (.num issued_at)),
   ("customer", .obj [("id", .str customer_id), ("name", .str customer_name)]),
   ("module", .obj [("technical_name", .str module_name),
                    ("allowed_major_versions", .strList allowed_versions)]),
   ("license_type", .leaf (.str license_type))] ++
  (match expires_at with
   | some e => [("exp", PVal.leaf (.num e))]
   | none => []) ++
  (match fp with
   | some f => [("instance_fingerprint", PVal.leaf (.str f))]
   | none => [])

/-- Lookup of a claim by key in a serialized field list: the claim set viewed
as a key-to-value map, insertion order forgotten. -/
def fieldLookup (fields : List (String × PVal)) (key : String) : Option PVal :=
  (fields.find? (fun kv => kv.1 == key)).map (fun kv => kv.2)

/-! ### The verification pipeline as an ordered list of independent checks

This is the spec's model (§4.2, §9): pure predicate checks, composed
left-to-right with short-circuiting.  Claim C2 proves `verify_license`
equal to this composition. -/

def runChecks : List (Payload → Option VerifyError) → Payload → Option VerifyError
  | [], _ => none
  | c :: cs, p =>
    match c p with
    | some e => some e
    | none => runChecks cs p

def requireClaimJti (p : Payload) : Option VerifyError :=
  if p.jti = none then some (.missingRequiredClaim "jti") else none

def requireClaimIss (p : Payload) : Option VerifyError :=
  if p.iss = none then some (.missingRequiredClaim "iss") else none

def requireClaimIat (p : Payload) : Option VerifyError :=
  if p.iat = none then some (.missingRequiredClaim "iat") else none

def expiryCheck (now : Int) (p : Payload) : Option VerifyError :=
  if expiredAt p.exp now then some .expired else none

def issuerCheck (expected : String) (p : Payload) : Option VerifyError :=
  if p.iss ≠ some expected then some .invalidIssuer else none

def productCheck (module_name : String) (p : Payload) : Option VerifyError :=
  if moduleTechnicalName p ≠ some module_name then some .moduleMismatch else none

def versionCheck (odoo_version : String) (p : Payload) : Option VerifyError :=
  if odoo_version ∉ moduleAllowedVersions p then some .versionNotAllowed else none

def bindingCheck (instance_db_uuid instance_domain : Option String) (p : Payload) :
    Option VerifyError :=
  match p.instance_fingerprint with
  | none => none
  | some fp =>
    match instance_db_uuid, instance_domain with
    | some dbu, some dom =>
      if dbu = "" ∨ dom = "" then some .bindingContextMissing
      else if fp ≠ generate_instance_fingerprint dbu dom then some .fingerprintMismatch
      else none
    | _, _ => some .bindingContextMissing

def demoPolicyCheck (p : Payload) : Option VerifyError :=
  if p.license_type = some "demo" ∧ expFalsy p.exp then some .demoWithoutExpiration else none

/-- The fixed check order of §4.2: mandatory claims, expiry, issuer identity,
product identity, version membership, instance binding, demo policy (the
structural/signature stage precedes these and is handled on `Token`). -/
def verificationPipeline (v : LicenseVerifier) (module_name odoo_version : String)
    (instance_db_uuid instance_domain : Option String) (now : Int) :
    List (Payload → Option VerifyError) :=
  [requireClaimJti, requireClaimIss, requireClaimIat,
   expiryCheck now, issuerCheck v.expected_issuer,
   productCheck module_name, versionCheck odoo_version,
   bindingCheck instance_db_uuid instance_domain, demoPolicyCheck]

/-- The fingerprint claim value the issuer embeds for parameter `p`
(`if instance_fingerprint:` — truthiness — so an empty string is omitted). -/
def issuanceFingerprint (p : IssueParams) : Option String :=
  match p.instance_fingerprint with
  | some fp => if fp = "" then none else some fp
  | none => none

/-- The verification time lies before any expiry the issuer embedded. -/
def beforeAnyExpiry (issueNow verifyNow : Int) (p : IssueParams) : Prop :=
  ∀ e, issuanceExpiry issueNow p = some e → verifyNow < e

/-- The caller's binding context matches whatever binding the issuer embedded
for `p`: vacuous for unbound tokens, and for bound tokens the caller supplies
the non-empty installation id and domain whose fingerprint is the embedded
one. -/
def bindingContextCompatible (p : IssueParams) (dbu dom : Option String) : Prop :=
  match issuanceFingerprint p with
  | none => True
  | some fp =>
    ∃ u d, dbu = some u ∧ dom = some d ∧ u ≠ "" ∧ d ≠ "" ∧
      generate_instance_fingerprint u d = fp

/-! ### Shared lemmas -/

set_option maxHeartbeats 1000000

/-- Helper: `verify_license` is the signature gate followed by the ordered,
short-circuiting composition of the nine pure checks. -/
theorem verify_license_pipeline_eq (v : LicenseVerifier) (tok : Token)
    (module_name odoo_version : String) (instance_db_uuid instance_domain : Option String)
    (now : Int) :
    verify_license v tok module_name odoo_version instance_db_uuid instance_domain now =
      match tok with
      | .malformed => .error .malformedToken
      | .signed payload sigKeyId =>
        if sigKeyId ≠ v.publicKeyId then .error .invalidSignature
        else
          match runChecks
              (verificationPipeline v module_name odoo_version instance_db_uuid instance_domain now)
              payload with
          | some e => .error e
          | none => .ok payload := by
  cases tok with
  | malformed => rfl
  | signed payload k =>
    by_cases h0 : k ≠ v.publicKeyId
    · simp [verify_license, runChecks, verificationPipeline, h0]
    by_cases h1 : payload.jti = none
    · simp [verify_license, runChecks, verificationPipeline, requireClaimJti, h0, h1]
    by_cases h2 : payload.iss = none
    · simp [verify_license, runChecks, verificationPipeline, requireClaimJti, requireClaimIss,
        h0, h1, h2]
    by_cases h3 : payload.iat = none
    · simp [verify_license, runChecks, verificationPipeline, requireClaimJti, requireClaimIss,
        requireClaimIat, h0, h1, h2, h3]
    by_cases h4 : expiredAt payload.exp now
    · simp [verify_license, runChecks, verificationPipeline, requireClaimJti, requireClaimIss,
        requireClaimIat, expiryCheck, h0, h1, h2, h3, h4]
    by_cases h5 : payload.iss ≠ some v.expected_issuer
    · simp [verify_license, runChecks, verificationPipeline, requireClaimJti, requireClaimIss,
        requireClaimIat, expiryCheck, issuerCheck, h0, h1, h2, h3, h4, h5]
    by_cases h6 : moduleTechnicalName payload ≠ some module_name
    · simp [verify_license, runChecks, verificationPipeline, requireClaimJti, requireClaimIss,
        requireClaimIat, expiryCheck, issuerCheck, productCheck, h0, h1, h2, h3, h4, h5, h6]
    by_cases h7 : odoo_version ∉ moduleAllowedVersions payload
    · simp [verify_license, runChecks, verificationPipeline, requireClaimJti, requireClaimIss,
        requireClaimIat, expiryCheck, issuerCheck, productCheck, versionCheck,
        h0, h1, h2, h3, h4, h5, h6, h7]
    rcases hfp : payload.instance_fingerprint with _ | fp
    · by_cases h9 : payload.license_type = some "demo" ∧ expFalsy payload.exp
      · simp [verify_license, runChecks, verificationPipeline, requireClaimJti, requireClaimIss,
          requireClaimIat, expiryCheck, issuerCheck, productCheck, versionCheck, bindingCheck,
          demoPolicyCheck, h0, h1, h2, h3, h4, h5, h6, h7, hfp, h9]
      · simp [verify_license, runChecks, verificationPipeline, requireClaimJti, requireClaimIss,
          requireClaimIat, expiryCheck, issuerCheck, productCheck, versionCheck, bindingCheck,
          demoPolicyCheck, h0, h1, h2, h3, h4, h5, h6, h7, hfp, h9]
    · rcases instance_db_uuid with _ | u
      · simp [verify_license, runChecks, verificationPipeline, requireClaimJti, requireClaimIss,
          requireClaimIat, expiryCheck, issuerCheck, productCheck, versionCheck, bindingCheck,
          h0, h1, h2, h3, h4, h5, h6, h7, hfp]
      rcases instance_domain with _ | d
      · simp [verify_license, runChecks, verificationPipeline, requireClaimJti, requireClaimIss,
          requireClaimIat, expiryCheck, issuerCheck, productCheck, versionCheck, bindingCheck,
          h0, h1, h2, h3, h4, h5, h6, h7, hfp]
      by_cases h8a : u = "" ∨ d = ""
      · simp [verify_license, runChecks, verificationPipeline, requireClaimJti, requireClaimIss,
          requireClaimIat, expiryCheck, issuerCheck, productCheck, versionCheck, bindingCheck,
          h0, h1, h2, h3, h4, h5, h6, h7, hfp, h8a]
      by_cases h8b : fp ≠ generate_instance_fingerprint u d
      · simp [verify_license, runChecks, verificationPipeline, requireClaimJti, requireClaimIss,
          requireClaimIat, expiryCheck, issuerCheck, productCheck, versionCheck, bindingCheck,
          h0, h1, h2, h3, h4, h5, h6, h7, hfp, h8a, h8b]
      by_cases h9 : payload.license_type = some "demo" ∧ expFalsy payload.exp
      · simp [verify_license, runChecks, verificationPipeline, requireClaimJti, requireClaimIss,
          requireClaimIat, expiryCheck, issuerCheck, productCheck, versionCheck, bindingCheck,
          demoPolicyCheck, h0, h1, h2, h3, h4, h5, h6, h7, hfp, h8a, h8b, h9]
      · simp [verify_license, runChecks, verificationPipeline, requireClaimJti, requireClaimIss,
          requireClaimIat, expiryCheck, issuerCheck, productCheck, versionCheck, bindingCheck,
          demoPolicyCheck, h0, h1, h2, h3, h4, h5, h6, h7, hfp, h8a, h8b, h9]

/-- Claim C2: for every token and verification context, `verify_license`
short-circuits and reports exactly the error of the first failing check in
the fixed order: structural/signature check, then the mandatory claims jti
("id"), iss ("issuer"), iat ("issued_at"), then expiry, issuer identity,
product name, version membership, instance binding (context missing before
fingerprint mismatch), then the demo-kind policy; when two checks would both
fail, the earlier one's error is the one observed (equality with the
left-to-right short-circuit composition `runChecks` of the ordered
`verificationPipeline`). -/
theorem claim_C2_pipeline_order (v : LicenseVerifier) (tok : Token)
    (module_name odoo_version : String) (instance_db_uuid instance_domain : Option String)
    (now : Int) :
    verify_license v tok module_name odoo_version instance_db_uuid instance_domain now =
      match tok with
      | .malformed => .error .malformedToken
      | .signed payload sigKeyId =>
        if sigKeyId ≠ v.publicKeyId then .error .invalidSignature
        else
          match runChecks
              (verificationPipeline v module_name odoo_version instance_db_uuid instance_domain now)
              payload with
          | some e => .error e
          | none => .ok payload :=
  verify_license_pipeline_eq v tok module_name odoo_version instance_db_uuid instance_domain now

/-- Helper: issuance succeeds and produces the canonical signed payload when
the kind is recognized and a duration accompanies subscription/demo kinds. -/
theorem issue_license_ok (keyId : Nat) (issuer : String) (now : Int) (p : IssueParams)
    (hkind : p.license_type ∈ ["perpetual", "subscription", "demo"])
    (hdur : p.license_type ∈ ["subscription", "demo"] → p.duration_days ≠ none) :
    issue_license keyId issuer now p = .ok (.signed (issuedPayload issuer now p) keyId) := by
  rw [issue_license, if_neg (by simp [hkind]), if_neg (fun h => hdur h.1 h.2)]

/-- Helper: a signed token passes the whole pipeline when every check passes. -/
theorem verify_signed_ok (v : LicenseVerifier) (payload : Payload) (k : Nat)
    (mn ov : String) (dbu dom : Option String) (now : Int)
    (hk : k = v.publicKeyId)
    (hjti : payload.jti ≠ none)
    (hiat : payload.iat ≠ none)
    (hexp : expiredAt payload.exp now = false)
    (hiss : payload.iss = some v.expected_issuer)
    (hmod : moduleTechnicalName payload = some mn)
    (hver : ov ∈ moduleAllowedVersions payload)
    (hbind : bindingCheck dbu dom payload = none)
    (hdemo : demoPolicyCheck payload = none) :
    verify_license v (.signed payload k) mn ov dbu dom now = .ok payload := by
  have c1 : requireClaimJti payload = none := by simp [requireClaimJti, hjti]
  have c2 : requireClaimIss payload = none := by simp [requireClaimIss, hiss]
  have c3 : requireClaimIat payload = none := by simp [requireClaimIat, hiat]
  have c4 : expiryCheck now payload = none := by simp [expiryCheck, hexp]
  have c5 : issuerCheck v.expected_issuer payload = none := by simp [issuerCheck, hiss]
  have c6 : productCheck mn payload = none := by simp [productCheck, hmod]
  have c7 : versionCheck ov payload = none := by simp [versionCheck, hver]
  rw [verify_license_pipeline_eq]
  simp [hk, verificationPipeline, runChecks, c1, c2, c3, c4, c5, c6, c7, hbind, hdemo]

/-- Helper: the fingerprint claim of an issued payload is `issuanceFingerprint`. -/
theorem issuedPayload_fingerprint (issuer : String) (now : Int) (p : IssueParams) :
    (issuedPayload issuer now p).instance_fingerprint = issuanceFingerprint p := rfl

/-- Helper: a compatible binding context passes the binding check on the
issued payload. -/
theorem issued_bindingCheck_none (issuer : String) (now : Int) (p : IssueParams)
    (dbu dom : Option String) (hctx : bindingContextCompatible p dbu dom) :
    bindingCheck dbu dom (issuedPayload issuer now p) = none := by
  unfold bindingContextCompatible at hctx
  rcases hfp : issuanceFingerprint p with _ | fp
  · simp [bindingCheck, issuedPayload_fingerprint, hfp]
  · rw [hfp] at hctx
    obtain ⟨u, d, rfl, rfl, hu, hd, hgen⟩ := hctx
    simp [bindingCheck, issuedPayload_fingerprint, hfp, hu, hd, hgen]

/-- Helper: an issued payload satisfies the demo policy when demo parameters
carry a positive duration and the issuance clock is a nonnegative Unix time. -/
theorem issued_demoPolicy_none (issuer : String) (now : Int) (p : IssueParams)
    (hdur : p.license_type = "demo" → ∃ d, p.duration_days = some d ∧ 0 < d)
    (hnow : 0 ≤ now) :
    demoPolicyCheck (issuedPayload issuer now p) = none := by
  rw [demoPolicyCheck, if_neg]
  rintro ⟨hdemo, hfalsy⟩
  simp only [issuedPayload] at hdemo
  have hdemo' : p.license_type = "demo" := by simpa using hdemo
  obtain ⟨d, hd, hdpos⟩ := hdur hdemo'
  have hexp : (issuedPayload issuer now p).exp = some (now + d * secondsPerDay) := by
    simp [issuedPayload, issuanceExpiry, hdemo', hd]
  rw [hexp] at hfalsy
  simp only [expFalsy, decide_eq_true_eq] at hfalsy
  simp only [secondsPerDay] at hfalsy
  omega

/-- Claim C1: for every valid parameter set (recognized kind, non-empty
allowed_versions, positive duration supplied for subscription/demo),
verifying the issued token against the same product name, with a matching
verifier key and issuer, a compatible binding context, and a clock before any
embedded expiry, succeeds for every version in `allowed_versions` and fails
with `VersionNotAllowed` (`versionNotAllowed`) for every version outside it. -/
theorem claim_C1_version_membership
    (keyId : Nat) (issuer : String) (now : Int) (p : IssueParams)
    (v : LicenseVerifier) (tok : Token) (verifyNow : Int) (dbu dom : Option String)
    (hkind : p.license_type ∈ ["perpetual", "subscription", "demo"])
    (_hvers : p.allowed_versions ≠ [])
    (hdur : p.license_type ∈ ["subscription", "demo"] → ∃ d, p.duration_days = some d ∧ 0 < d)
    (hnow : 0 ≤ now)
    (hk : v.publicKeyId = keyId) (hiss : v.expected_issuer = issuer)
    (hbefore : beforeAnyExpiry now verifyNow p)
    (hctx : bindingContextCompatible p dbu dom)
    (hissue : issue_license keyId issuer now p = .ok tok) :
    (∀ ver ∈ p.allowed_versions,
        verify_license v tok p.module_name ver dbu dom verifyNow =
          .ok (issuedPayload issuer now p)) ∧
    (∀ ver, ver ∉ p.allowed_versions →
        verify_license v tok p.module_name ver dbu dom verifyNow =
          .error .versionNotAllowed) := by
  have hdur' : p.license_type ∈ ["subscription", "demo"] → p.duration_days ≠ none := by
    intro h
    obtain ⟨d, hd, _⟩ := hdur h
    simp [hd]
  rw [issue_license_ok keyId issuer now p hkind hdur'] at hissue
  have htok : tok = .signed (issuedPayload issuer now p) keyId := (Except.ok.inj hissue).symm
  subst htok
  have hexp : expiredAt (issuedPayload issuer now p).exp verifyNow = false := by
    have : (issuedPayload issuer now p).exp = issuanceExpiry now p := rfl
    rw [this]
    rcases hie : issuanceExpiry now p with _ | e
    · simp [expiredAt]
    · have := hbefore e hie
      simp only [expiredAt, decide_eq_false_iff_not]
      omega
  have hbind := issued_bindingCheck_none issuer now p dbu dom hctx
  have hdemo := issued_demoPolicy_none issuer now p
    (fun h => hdur (by simp [h])) hnow
  have c1 : requireClaimJti (issuedPayload issuer now p) = none := by
    simp [requireClaimJti, issuedPayload]
  have c2 : requireClaimIss (issuedPayload issuer now p) = none := by
    simp [requireClaimIss, issuedPayload]
  have c3 : requireClaimIat (issuedPayload issuer now p) = none := by
    simp [requireClaimIat, issuedPayload]
  have c4 : expiryCheck verifyNow (issuedPayload issuer now p) = none := by
    simp [expiryCheck, hexp]
  have c5 : issuerCheck v.expected_issuer (issuedPayload issuer now p) = none := by
    simp [issuerCheck, issuedPayload, hiss]
  have c6 : productCheck p.module_name (issuedPayload issuer now p) = none := by
    simp [productCheck, moduleTechnicalName, issuedPayload]
  constructor
  · intro ver hver
    exact verify_signed_ok v (issuedPayload issuer now p) keyId p.module_name ver dbu dom
      verifyNow hk.symm (by simp [issuedPayload]) (by simp [issuedPayload]) hexp
      (by simp [issuedPayload, hiss]) (by simp [moduleTechnicalName, issuedPayload])
      (by simpa [moduleAllowedVersions, issuedPayload] using hver) hbind hdemo
  · intro ver hver
    have c7 : versionCheck ver (issuedPayload issuer now p) = some .versionNotAllowed := by
      simp [versionCheck, moduleAllowedVersions, issuedPayload, hver]
    rw [verify_license_pipeline_eq]
    simp [hk, verificationPipeline, runChecks, c1, c2, c3, c4, c5, c6, c7]

/-- Witness for claim C1 at a concrete perpetual license. -/
theorem claim_C1_witness :
    (∀ ver ∈ (["17", "18"] : List String),
        verify_license ⟨7, "I"⟩
          (.signed (issuedPayload "I" 1000
            ⟨"L1", "C1", "Acme", "payroll", ["17", "18"], "perpetual", none, none⟩) 7)
          "payroll" ver none none 2000 =
          .ok (issuedPayload "I" 1000
            ⟨"L1", "C1", "Acme", "payroll", ["17", "18"], "perpetual", none, none⟩)) ∧
    (∀ ver, ver ∉ (["17", "18"] : List String) →
        verify_license ⟨7, "I"⟩
          (.signed (issuedPayload "I" 1000
            ⟨"L1", "C1", "Acme", "payroll", ["17", "18"], "perpetual", none, none⟩) 7)
          "payroll" ver none none 2000 = .error .versionNotAllowed) := by
  have h := claim_C1_version_membership 7 "I" 1000
    ⟨"L1", "C1", "Acme", "payroll", ["17", "18"], "perpetual", none, none⟩
    ⟨7, "I"⟩ (.signed (issuedPayload "I" 1000
      ⟨"L1", "C1", "Acme", "payroll", ["17", "18"], "perpetual", none, none⟩) 7)
    2000 none none (by decide) (by decide) (by intro h; simp at h) (by decide)
    rfl rfl (by intro e he; simp [issuanceExpiry] at he)
    (by simp [bindingContextCompatible, issuanceFingerprint]) rfl
  simpa [moduleAllowedVersions, issuedPayload] using h

/-- Claim C4, counterexample: `issue_license` accepts a subscription request
whose duration is negative — duration −1 day produces a signed token (whose
expiry already lies in the past) instead of failing with `InvalidParameters`.
The only duration validation in `issue_license` is the `None` check; the
`ge=1` bound lives solely in the HTTP request schema outside the core. -/
theorem claim_C4_counterexample :
    issue_license 7 "I" 1000
        ⟨"L3", "C1", "Acme", "payroll", ["18"], "subscription", some (-1), none⟩ =
      .ok (.signed (issuedPayload "I" 1000
        ⟨"L3", "C1", "Acme", "payroll", ["18"], "subscription", some (-1), none⟩) 7) := rfl

/-- Claim C4 as amended: for subscription and demo kinds, issuance fails with
`InvalidParameters` (`durationRequired`) exactly when the duration is absent;
any supplied duration — positive or not — is accepted and yields a signed
token. -/
theorem claim_C4_duration_required
    (keyId : Nat) (issuer : String) (now : Int) (p : IssueParams)
    (hkind : p.license_type = "subscription" ∨ p.license_type = "demo") :
    (p.duration_days = none →
        issue_license keyId issuer now p = .error .durationRequired) ∧
    (∀ d, p.duration_days = some d →
        issue_license keyId issuer now p = .ok (.signed (issuedPayload issuer now p) keyId)) := by
  have hmem : p.license_type ∈ ["subscription", "demo"] := by
    rcases hkind with h | h <;> simp [h]
  have hmem3 : p.license_type ∈ ["perpetual", "subscription", "demo"] := by
    rcases hkind with h | h <;> simp [h]
  constructor
  · intro hnone
    rw [issue_license, if_neg (by simp [hmem3]), if_pos ⟨hmem, hnone⟩]
  · intro d hd
    exact issue_license_ok keyId issuer now p hmem3 (fun _ => by simp [hd])

/-- Witness for claim C4 as amended: a subscription without duration is
refused, and a demo with a 30-day duration yields the signed token. -/
theorem claim_C4_witness :
    issue_license 7 "I" 1000 ⟨"L4", "C1", "Acme", "payroll", ["18"], "subscription", none, none⟩ =
      .error .durationRequired ∧
    issue_license 7 "I" 1000 ⟨"L5", "C1", "Acme", "payroll", ["18"], "demo", some 30, none⟩ =
      .ok (.signed (issuedPayload "I" 1000
        ⟨"L5", "C1", "Acme", "payroll", ["18"], "demo", some 30, none⟩) 7) :=
  ⟨(claim_C4_duration_required 7 "I" 1000
      ⟨"L4", "C1", "Acme", "payroll", ["18"], "subscription", none, none⟩ (Or.inl rfl)).1 rfl,
   (claim_C4_duration_required 7 "I" 1000
      ⟨"L5", "C1", "Acme", "payroll", ["18"], "demo", some 30, none⟩ (Or.inr rfl)).2 30 rfl⟩

/-- Helper: a successful `runChecks` run found no failing check. -/
theorem runChecks_some_mem (cs : List (Payload → Option VerifyError)) (p : Payload)
    (e : VerifyError) (h : runChecks cs p = some e) : ∃ c ∈ cs, c p = some e := by
  induction cs with
  | nil => simp [runChecks] at h
  | cons c cs ih =>
    rw [runChecks] at h
    rcases hc : c p with _ | e'
    · rw [hc] at h
      obtain ⟨c', hc', he'⟩ := ih h
      exact ⟨c', List.mem_cons_of_mem c hc', he'⟩
    · rw [hc] at h
      exact ⟨c, List.mem_cons_self c cs, hc.trans (by simpa using h)⟩

/-- Helper: with the signature gate and the first seven checks passing,
`verify_license` is decided by the binding check and then the demo policy. -/
theorem verify_reduces_to_binding (v : LicenseVerifier) (payload : Payload) (k : Nat)
    (mn ov : String) (dbu dom : Option String) (now : Int)
    (hk : k = v.publicKeyId)
    (hjti : payload.jti ≠ none)
    (hiat : payload.iat ≠ none)
    (hexp : expiredAt payload.exp now = false)
    (hiss : payload.iss = some v.expected_issuer)
    (hmod : moduleTechnicalName payload = some mn)
    (hver : ov ∈ moduleAllowedVersions payload) :
    verify_license v (.signed payload k) mn ov dbu dom now =
      match runChecks [bindingCheck dbu dom, demoPolicyCheck] payload with
      | some e => .error e
      | none => .ok payload := by
  have c1 : requireClaimJti payload = none := by simp [requireClaimJti, hjti]
  have c2 : requireClaimIss payload = none := by simp [requireClaimIss, hiss]
  have c3 : requireClaimIat payload = none := by simp [requireClaimIat, hiat]
  have c4 : expiryCheck now payload = none := by simp [expiryCheck, hexp]
  have c5 : issuerCheck v.expected_issuer payload = none := by simp [issuerCheck, hiss]
  have c6 : productCheck mn payload = none := by simp [productCheck, hmod]
  have c7 : versionCheck ov payload = none := by simp [versionCheck, hver]
  rw [verify_license_pipeline_eq]
  simp only [hk, ne_eq, not_true_eq_false, if_false, ite_false, if_neg,
    verificationPipeline, runChecks, c1, c2, c3, c4, c5, c6, c7]

/-- Helper: when the expiry test is false for a payload, no check of the
pipeline can report `expired`. -/
theorem checks_not_expired (v : LicenseVerifier) (mn ov : String)
    (dbu dom : Option String) (verifyNow : Int) (q : Payload)
    (hexp : expiredAt q.exp verifyNow = false) :
    ∀ c ∈ verificationPipeline v mn ov dbu dom verifyNow, c q ≠ some .expired := by
  intro c hc
  simp only [verificationPipeline, List.mem_cons, List.not_mem_nil, or_false] at hc
  rcases hc with rfl | rfl | rfl | rfl | rfl | rfl | rfl | rfl | rfl
  · simp only [requireClaimJti]; split <;> simp
  · simp only [requireClaimIss]; split <;> simp
  · simp only [requireClaimIat]; split <;> simp
  · simp [expiryCheck, hexp]
  · simp only [issuerCheck]; split <;> simp
  · simp only [productCheck]; split <;> simp
  · simp only [versionCheck]; split <;> simp
  · rcases hf : q.instance_fingerprint with _ | fp
    · simp [bindingCheck, hf]
    · rcases dbu with _ | u <;> rcases dom with _ | d <;>
        simp [bindingCheck, hf] <;> split_ifs <;> simp
  · simp only [demoPolicyCheck]; split <;> simp

/-- Claim C8: a perpetual issuance embeds no expiry claim at all, and the
resulting token never fails verification with `Expired`, for every verifier
configuration, context and clock. -/
theorem claim_C8_perpetual_never_expired
    (keyId : Nat) (issuer : String) (now : Int) (p : IssueParams) (tok : Token)
    (hkind : p.license_type = "perpetual")
    (hissue : issue_license keyId issuer now p = .ok tok) :
    (issuedPayload issuer now p).exp = none ∧
    tok = .signed (issuedPayload issuer now p) keyId ∧
    ∀ (v : LicenseVerifier) (mn ov : String) (dbu dom : Option String) (verifyNow : Int),
      verify_license v tok mn ov dbu dom verifyNow ≠ .error .expired := by
  have hexpnone : (issuedPayload issuer now p).exp = none := by
    simp [issuedPayload, issuanceExpiry, hkind]
  have htok : tok = .signed (issuedPayload issuer now p) keyId := by
    rw [issue_license_ok keyId issuer now p (by simp [hkind]) (by simp [hkind])] at hissue
    exact (Except.ok.inj hissue).symm
  refine ⟨hexpnone, htok, ?_⟩
  subst htok
  intro v mn ov dbu dom verifyNow
  rw [verify_license_pipeline_eq]
  by_cases hkk : keyId ≠ v.publicKeyId
  · simp [hkk]
  · rcases hr : runChecks (verificationPipeline v mn ov dbu dom verifyNow)
        (issuedPayload issuer now p) with _ | e
    · simp [hkk, hr]
    · obtain ⟨c, hc, hce⟩ := runChecks_some_mem _ _ _ hr
      have hne := checks_not_expired v mn ov dbu dom verifyNow (issuedPayload issuer now p)
        (by simp [expiredAt, hexpnone]) c hc
      have hee : e ≠ .expired := fun h => hne (by rw [hce, h])
      simp [hkk, hr, hee]

/-- Witness for claim C8 at a concrete perpetual license. -/
theorem claim_C8_witness :
    (issuedPayload "I" 1000
        ⟨"L1", "C1", "Acme", "payroll", ["17", "18"], "perpetual", none, none⟩).exp = none ∧
    Token.signed (issuedPayload "I" 1000
        ⟨"L1", "C1", "Acme", "payroll", ["17", "18"], "perpetual", none, none⟩) 7 =
      .signed (issuedPayload "I" 1000
        ⟨"L1", "C1", "Acme", "payroll", ["17", "18"], "perpetual", none, none⟩) 7 ∧
    ∀ (v : LicenseVerifier) (mn ov : String) (dbu dom : Option String) (verifyNow : Int),
      verify_license v
          (.signed (issuedPayload "I" 1000
            ⟨"L1", "C1", "Acme", "payroll", ["17", "18"], "perpetual", none, none⟩) 7)
          mn ov dbu dom verifyNow ≠ .error .expired :=
  claim_C8_perpetual_never_expired 7 "I" 1000
    ⟨"L1", "C1", "Acme", "payroll", ["17", "18"], "perpetual", none, none⟩
    (.signed (issuedPayload "I" 1000
      ⟨"L1", "C1", "Acme", "payroll", ["17", "18"], "perpetual", none, none⟩) 7)
    rfl rfl

/-- Claim C7: a subscription or demo token issued with duration `D` embeds
the expiry `issued_at + D` days (86400 seconds per day); with every other
check passing, verification succeeds strictly before that instant and fails
with `Expired` from the exact boundary `now = expires_at` onwards. -/
theorem claim_C7_duration_window
    (keyId : Nat) (issuer : String) (now : Int) (p : IssueParams)
    (v : LicenseVerifier) (tok : Token) (dbu dom : Option String) (ver : String) (D : Int)
    (hkind : p.license_type = "subscription" ∨ p.license_type = "demo")
    (hdur : p.duration_days = some D) (hD : 0 < D) (hnow : 0 ≤ now)
    (hk : v.publicKeyId = keyId) (hiss : v.expected_issuer = issuer)
    (hctx : bindingContextCompatible p dbu dom)
    (hver : ver ∈ p.allowed_versions)
    (hissue : issue_license keyId issuer now p = .ok tok) :
    (issuedPayload issuer now p).exp = some (now + D * secondsPerDay) ∧
    (∀ verifyNow, verifyNow < now + D * secondsPerDay →
        verify_license v tok p.module_name ver dbu dom verifyNow =
          .ok (issuedPayload issuer now p)) ∧
    (∀ verifyNow, now + D * secondsPerDay ≤ verifyNow →
        verify_license v tok p.module_name ver dbu dom verifyNow = .error .expired) := by
  have hmem : p.license_type ∈ ["subscription", "demo"] := by
    rcases hkind with h | h <;> simp [h]
  have hmem3 : p.license_type ∈ ["perpetual", "subscription", "demo"] := by
    rcases hkind with h | h <;> simp [h]
  have hexpval : (issuedPayload issuer now p).exp = some (now + D * secondsPerDay) := by
    simp [issuedPayload, issuanceExpiry, hmem, hdur]
  have htok : tok = .signed (issuedPayload issuer now p) keyId := by
    rw [issue_license_ok keyId issuer now p hmem3 (fun _ => by simp [hdur])] at hissue
    exact (Except.ok.inj hissue).symm
  subst htok
  refine ⟨hexpval, ?_, ?_⟩
  · intro verifyNow hlt
    have hexp : expiredAt (issuedPayload issuer now p).exp verifyNow = false := by
      rw [hexpval]
      simp only [expiredAt, decide_eq_false_iff_not, not_le]
      exact hlt
    exact verify_signed_ok v _ keyId p.module_name ver dbu dom verifyNow hk.symm
      (by simp [issuedPayload]) (by simp [issuedPayload]) hexp (by simp [issuedPayload, hiss])
      (by simp [moduleTechnicalName, issuedPayload])
      (by simpa [moduleAllowedVersions, issuedPayload] using hver)
      (issued_bindingCheck_none issuer now p dbu dom hctx)
      (issued_demoPolicy_none issuer now p (fun _ => ⟨D, hdur, hD⟩) hnow)
  · intro verifyNow hge
    have c1 : requireClaimJti (issuedPayload issuer now p) = none := by
      simp [requireClaimJti, issuedPayload]
    have c2 : requireClaimIss (issuedPayload issuer now p) = none := by
      simp [requireClaimIss, issuedPayload]
    have c3 : requireClaimIat (issuedPayload issuer now p) = none := by
      simp [requireClaimIat, issuedPayload]
    have hexp : expiredAt (issuedPayload issuer now p).exp verifyNow = true := by
      rw [hexpval]
      simp only [expiredAt, decide_eq_true_eq, ge_iff_le]
      exact hge
    have c4 : expiryCheck verifyNow (issuedPayload issuer now p) = some .expired := by
      simp [expiryCheck, hexp]
    rw [verify_license_pipeline_eq]
    simp [hk, verificationPipeline, runChecks, c1, c2, c3, c4]

/-- Witness for claim C7 at a concrete 30-day demo license. -/
theorem claim_C7_witness :
    (issuedPayload "I" 1000
        ⟨"L2", "C1", "Acme", "payroll", ["18"], "demo", some 30, none⟩).exp =
      some (1000 + 30 * secondsPerDay) ∧
    (∀ verifyNow, verifyNow < 1000 + 30 * secondsPerDay →
        verify_license ⟨7, "I"⟩
          (.signed (issuedPayload "I" 1000
            ⟨"L2", "C1", "Acme", "payroll", ["18"], "demo", some 30, none⟩) 7)
          "payroll" "18" none none verifyNow =
          .ok (issuedPayload "I" 1000
            ⟨"L2", "C1", "Acme", "payroll", ["18"], "demo", some 30, none⟩)) ∧
    (∀ verifyNow, 1000 + 30 * secondsPerDay ≤ verifyNow →
        verify_license ⟨7, "I"⟩
          (.signed (issuedPayload "I" 1000
            ⟨"L2", "C1", "Acme", "payroll", ["18"], "demo", some 30, none⟩) 7)
          "payroll" "18" none none verifyNow = .error .expired) := by
  have h := claim_C7_duration_window 7 "I" 1000
    ⟨"L2", "C1", "Acme", "payroll", ["18"], "demo", some 30, none⟩
    ⟨7, "I"⟩ (.signed (issuedPayload "I" 1000
      ⟨"L2", "C1", "Acme", "payroll", ["18"], "demo", some 30, none⟩) 7)
    none none "18" 30 (Or.inr rfl) rfl (by decide) (by decide) rfl rfl
    (by simp [bindingContextCompatible, issuanceFingerprint]) (by decide) rfl
  simpa using h

/-- Claim C6: a validly signed token whose `license_type` is demo and whose
claims carry no expiry fails verification with `PolicyViolation`
(`demoWithoutExpiration`) although signature, mandatory claims, issuer,
product, version and binding checks all pass; it is never returned as valid. -/
theorem claim_C6_demo_without_expiry
    (v : LicenseVerifier) (payload : Payload) (k : Nat) (mn ov : String)
    (dbu dom : Option String) (now : Int)
    (hk : k = v.publicKeyId)
    (hjti : payload.jti ≠ none) (hiat : payload.iat ≠ none)
    (hiss : payload.iss = some v.expected_issuer)
    (hmod : moduleTechnicalName payload = some mn)
    (hver : ov ∈ moduleAllowedVersions payload)
    (hbind : bindingCheck dbu dom payload = none)
    (hdemo : payload.license_type = some "demo")
    (hnoexp : payload.exp = none) :
    verify_license v (.signed payload k) mn ov dbu dom now = .error .demoWithoutExpiration := by
  have hexp : expiredAt payload.exp now = false := by simp [expiredAt, hnoexp]
  rw [verify_reduces_to_binding v payload k mn ov dbu dom now hk hjti hiat hexp hiss hmod hver]
  have hd : demoPolicyCheck payload = some .demoWithoutExpiration := by
    simp [demoPolicyCheck, hdemo, expFalsy, hnoexp]
  simp [runChecks, hbind, hd]

/-- Witness for claim C6 at a concrete hand-crafted, validly signed demo
payload with no expiry claim. -/
theorem claim_C6_witness :
    verify_license ⟨7, "I"⟩
        (.signed ⟨some "x", some "I", some 5, none, none, some ⟨some "m", ["18"]⟩,
          some "demo", none⟩ 7)
        "m" "18" none none 10 = .error .demoWithoutExpiration :=
  claim_C6_demo_without_expiry ⟨7, "I"⟩
    ⟨some "x", some "I", some 5, none, none, some ⟨some "m", ["18"]⟩, some "demo", none⟩
    7 "m" "18" none none 10 rfl (by simp) (by simp) rfl rfl (by decide) rfl rfl rfl

/-- Helper: the demo policy check can only ever report `demoWithoutExpiration`. -/
theorem demoPolicyCheck_eq_some (q : Payload) (e : VerifyError)
    (h : demoPolicyCheck q = some e) : e = .demoWithoutExpiration := by
  simp only [demoPolicyCheck] at h
  split at h
  · exact (Option.some.inj h).symm
  · exact absurd h (by simp)

/-- Claim C5: for a validly signed token that reaches the binding stage (all
earlier checks pass) and carries `instance_fingerprint`: an absent or empty
installation id or domain yields `BindingContextMissing`; with both supplied
non-empty, the verifier recomputes sha256 over `installation_id + ":" +
domain`, hex encoded with the algorithm tag, and fails with
`InstanceMismatch` exactly when it differs from the embedded value; when the
claim is absent, no binding failure can occur for any context. -/
theorem claim_C5_instance_binding
    (v : LicenseVerifier) (payload : Payload) (k : Nat) (mn ov : String) (now : Int)
    (hk : k = v.publicKeyId)
    (hjti : payload.jti ≠ none) (hiat : payload.iat ≠ none)
    (hexp : expiredAt payload.exp now = false)
    (hiss : payload.iss = some v.expected_issuer)
    (hmod : moduleTechnicalName payload = some mn)
    (hver : ov ∈ moduleAllowedVersions payload) :
    (∀ fp, payload.instance_fingerprint = some fp →
        (∀ dbu dom, (dbu = none ∨ dbu = some "" ∨ dom = none ∨ dom = some "") →
            verify_license v (.signed payload k) mn ov dbu dom now =
              .error .bindingContextMissing) ∧
        (∀ u d, u ≠ "" → d ≠ "" →
            (verify_license v (.signed payload k) mn ov (some u) (some d) now =
                .error .fingerprintMismatch ↔
              fp ≠ generate_instance_fingerprint u d))) ∧
    (payload.instance_fingerprint = none →
        ∀ dbu dom,
          verify_license v (.signed payload k) mn ov dbu dom now ≠
              .error .bindingContextMissing ∧
          verify_license v (.signed payload k) mn ov dbu dom now ≠
              .error .fingerprintMismatch) := by
  constructor
  · intro fp hfp
    constructor
    · intro dbu dom hfalsy
      rw [verify_reduces_to_binding v payload k mn ov dbu dom now hk hjti hiat hexp hiss hmod
        hver]
      have hb : bindingCheck dbu dom payload = some .bindingContextMissing := by
        rcases hfalsy with rfl | rfl | rfl | rfl
        · simp [bindingCheck, hfp]
        · rcases dom with _ | d <;> simp [bindingCheck, hfp]
        · rcases dbu with _ | u <;> simp [bindingCheck, hfp]
        · rcases dbu with _ | u <;> simp [bindingCheck, hfp]
      simp [runChecks, hb]
    · intro u d hu hd
      rw [verify_reduces_to_binding v payload k mn ov (some u) (some d) now hk hjti hiat hexp
        hiss hmod hver]
      by_cases hm : fp = generate_instance_fingerprint u d
      · have hb : bindingCheck (some u) (some d) payload = none := by
          simp [bindingCheck, hfp, hu, hd, hm]
        rcases hdp : demoPolicyCheck payload with _ | e
        · simp [runChecks, hb, hdp, hm]
        · have he := demoPolicyCheck_eq_some payload e hdp
          subst he
          simp [runChecks, hb, hdp, hm]
      · have hb : bindingCheck (some u) (some d) payload = some .fingerprintMismatch := by
          simp [bindingCheck, hfp, hu, hd, hm]
        simp [runChecks, hb, hm]
  · intro hfp dbu dom
    rw [verify_reduces_to_binding v payload k mn ov dbu dom now hk hjti hiat hexp hiss hmod
      hver]
    have hb : bindingCheck dbu dom payload = none := by simp [bindingCheck, hfp]
    rcases hdp : demoPolicyCheck payload with _ | e
    · simp [runChecks, hb, hdp]
    · have he := demoPolicyCheck_eq_some payload e hdp
      subst he
      simp [runChecks, hb, hdp]

/-- Witness for claim C5 at a concrete bound payload. -/
theorem claim_C5_witness :
    (∀ fp, (Payload.mk (some "x") (some "I") (some 5) none none
          (some ⟨some "m", ["18"]⟩) none (some "sha256:ff")).instance_fingerprint = some fp →
        (∀ dbu dom, (dbu = none ∨ dbu = some "" ∨ dom = none ∨ dom = some "") →
            verify_license ⟨7, "I"⟩
              (.signed ⟨some "x", some "I", some 5, none, none,
                some ⟨some "m", ["18"]⟩, none, some "sha256:ff"⟩ 7)
              "m" "18" dbu dom 10 = .error .bindingContextMissing) ∧
        (∀ u d, u ≠ "" → d ≠ "" →
            (verify_license ⟨7, "I"⟩
                (.signed ⟨some "x", some "I", some 5, none, none,
                  some ⟨some "m", ["18"]⟩, none, some "sha256:ff"⟩ 7)
                "m" "18" (some u) (some d) 10 = .error .fingerprintMismatch ↔
              fp ≠ generate_instance_fingerprint u d))) ∧
    ((Payload.mk (some "x") (some "I") (some 5) none none
          (some ⟨some "m", ["18"]⟩) none (some "sha256:ff")).instance_fingerprint = none →
        ∀ dbu dom,
          verify_license ⟨7, "I"⟩
              (.signed ⟨some "x", some "I", some 5, none, none,
                some ⟨some "m", ["18"]⟩, none, some "sha256:ff"⟩ 7)
              "m" "18" dbu dom 10 ≠ .error .bindingContextMissing ∧
          verify_license ⟨7, "I"⟩
              (.signed ⟨some "x", some "I", some 5, none, none,
                some ⟨some "m", ["18"]⟩, none, some "sha256:ff"⟩ 7)
              "m" "18" dbu dom 10 ≠ .error .fingerprintMismatch) :=
  claim_C5_instance_binding ⟨7, "I"⟩
    ⟨some "x", some "I", some 5, none, none, some ⟨some "m", ["18"]⟩, none, some "sha256:ff"⟩
    7 "m" "18" 10 rfl (by simp) (by simp) rfl rfl rfl (by decide)

/-- Helper: when the fingerprint claim is absent, no check of the pipeline can
report a binding error. -/
theorem checks_not_binding (v : LicenseVerifier) (mn ov : String)
    (dbu dom : Option String) (verifyNow : Int) (q : Payload)
    (hq : q.instance_fingerprint = none) :
    ∀ c ∈ verificationPipeline v mn ov dbu dom verifyNow,
      c q ≠ some .bindingContextMissing ∧ c q ≠ some .fingerprintMismatch := by
  intro c hc
  simp only [verificationPipeline, List.mem_cons, List.not_mem_nil, or_false] at hc
  rcases hc with rfl | rfl | rfl | rfl | rfl | rfl | rfl | rfl | rfl
  · constructor <;> (simp only [requireClaimJti]; split <;> simp)
  · constructor <;> (simp only [requireClaimIss]; split <;> simp)
  · constructor <;> (simp only [requireClaimIat]; split <;> simp)
  · constructor <;> (simp only [expiryCheck]; split <;> simp)
  · constructor <;> (simp only [issuerCheck]; split <;> simp)
  · constructor <;> (simp only [productCheck]; split <;> simp)
  · constructor <;> (simp only [versionCheck]; split <;> simp)
  · constructor <;> simp [bindingCheck, hq]
  · constructor <;> (simp only [demoPolicyCheck]; split <;> simp)

/-- Helper: a token issued successfully is the signed issued payload, whatever
the parameter validation route. -/
theorem issue_ok_inv (keyId : Nat) (issuer : String) (now : Int) (p : IssueParams) (tok : Token)
    (hissue : issue_license keyId issuer now p = .ok tok) :
    tok = .signed (issuedPayload issuer now p) keyId := by
  simp only [issue_license] at hissue
  split_ifs at hissue
  exact (Except.ok.inj hissue).symm

/-- Claim C9: `get_license_info` never reads the signature — its result is
independent of which key pair signed the token — while `verify_license` on a
token signed with a key other than the configured one fails with
`InvalidSignature`; and inspecting an issued token recovers the product name,
customer name, license kind and presence/absence of the binding claim exactly
as supplied. -/
theorem claim_C9_inspect_vs_verify :
    (∀ (payload : Payload) (k1 k2 : Nat),
        get_license_info (.signed payload k1) = get_license_info (.signed payload k2)) ∧
    (∀ (v : LicenseVerifier) (payload : Payload) (k : Nat) (mn ov : String)
        (dbu dom : Option String) (now : Int), k ≠ v.publicKeyId →
        verify_license v (.signed payload k) mn ov dbu dom now = .error .invalidSignature) ∧
    (∀ (keyId : Nat) (issuer : String) (now : Int) (p : IssueParams) (tok : Token),
        issue_license keyId issuer now p = .ok tok →
        p.instance_fingerprint ≠ some "" →
        ∃ info, get_license_info tok = .ok info ∧
          info.module = some ⟨some p.module_name, p.allowed_versions⟩ ∧
          info.customer.map CustomerInfo.name = some p.customer_name ∧
          info.license_type = some p.license_type ∧
          info.is_bound = p.instance_fingerprint.isSome) := by
  refine ⟨fun payload k1 k2 => rfl, ?_, ?_⟩
  · intro v payload k mn ov dbu dom now hne
    simp [verify_license, hne]
  · intro keyId issuer now p tok hissue hfp
    have htok := issue_ok_inv keyId issuer now p tok hissue
    subst htok
    refine ⟨_, rfl, ?_, ?_, ?_, ?_⟩
    · rfl
    · rfl
    · rfl
    · show (issuedPayload issuer now p).instance_fingerprint.isSome = _
      rcases hf : p.instance_fingerprint with _ | fv
    -- fingerprint absent: both sides false
      · simp [issuedPayload, hf]
      · have hfv : fv ≠ "" := fun h => hfp (by rw [hf, h])
        simp [issuedPayload, hf, hfv]

/-- Witness for claim C9 at concrete tokens: a payload signed by two keys, a
verifier with a different key, and a round trip through a bound issuance. -/
theorem claim_C9_witness :
    get_license_info (.signed ⟨some "x", some "I", some 5, none, none, none, none, none⟩ 1) =
      get_license_info (.signed ⟨some "x", some "I", some 5, none, none, none, none, none⟩ 2) ∧
    verify_license ⟨7, "I"⟩
        (.signed ⟨some "x", some "I", some 5, none, none, none, none, none⟩ 8)
        "m" "18" none none 10 = .error .invalidSignature ∧
    ∃ info,
      get_license_info (.signed (issuedPayload "I" 1000
          ⟨"L6", "C1", "Acme", "payroll", ["18"], "perpetual", none, some "sha256:ff"⟩) 7) =
        .ok info ∧
      info.module = some ⟨some "payroll", ["18"]⟩ ∧
      info.customer.map CustomerInfo.name = some "Acme" ∧
      info.license_type = some "perpetual" ∧
      info.is_bound = (some "sha256:ff" : Option String).isSome :=
  ⟨claim_C9_inspect_vs_verify.1 ⟨some "x", some "I", some 5, none, none, none, none, none⟩ 1 2,
   claim_C9_inspect_vs_verify.2.1 ⟨7, "I"⟩
     ⟨some "x", some "I", some 5, none, none, none, none, none⟩ 8 "m" "18" none none 10
     (by decide),
   claim_C9_inspect_vs_verify.2.2 7 "I" 1000
     ⟨"L6", "C1", "Acme", "payroll", ["18"], "perpetual", none, some "sha256:ff"⟩
     (.signed (issuedPayload "I" 1000
       ⟨"L6", "C1", "Acme", "payroll", ["18"], "perpetual", none, some "sha256:ff"⟩) 7)
     rfl (by simp)⟩

/-- Claim C10: an empty-string fingerprint supplied at issuance is dropped
entirely (the issuer tests truthiness, not presence), so the token carries no
binding claim and can never fail with a binding error; and the verifier
treats an empty-string installation id or domain as not supplied, failing
with `BindingContextMissing` rather than `InstanceMismatch`. -/
theorem claim_C10_empty_string_truthiness :
    (∀ (keyId : Nat) (issuer : String) (now : Int) (p : IssueParams) (tok : Token),
        p.instance_fingerprint = some "" →
        issue_license keyId issuer now p = .ok tok →
        (issuedPayload issuer now p).instance_fingerprint = none ∧
        ∀ (v : LicenseVerifier) (mn ov : String) (dbu dom : Option String) (verifyNow : Int),
          verify_license v tok mn ov dbu dom verifyNow ≠ .error .bindingContextMissing ∧
          verify_license v tok mn ov dbu dom verifyNow ≠ .error .fingerprintMismatch) ∧
    (∀ (v : LicenseVerifier) (payload : Payload) (k : Nat) (mn ov : String)
        (dbu dom : Option String) (now : Int) (fp : String),
        k = v.publicKeyId → payload.jti ≠ none → payload.iat ≠ none →
        expiredAt payload.exp now = false → payload.iss = some v.expected_issuer →
        moduleTechnicalName payload = some mn → ov ∈ moduleAllowedVersions payload →
        payload.instance_fingerprint = some fp →
        (dbu = some "" ∨ dom = some "") →
        verify_license v (.signed payload k) mn ov dbu dom now =
          .error .bindingContextMissing) := by
  constructor
  · intro keyId issuer now p tok hempty hissue
    have hnofp : (issuedPayload issuer now p).instance_fingerprint = none := by
      simp [issuedPayload, hempty]
    have htok := issue_ok_inv keyId issuer now p tok hissue
    subst htok
    refine ⟨hnofp, ?_⟩
    intro v mn ov dbu dom verifyNow
    rw [verify_license_pipeline_eq]
    by_cases hkk : keyId ≠ v.publicKeyId
    · simp [hkk]
    rcases hr : runChecks (verificationPipeline v mn ov dbu dom verifyNow)
        (issuedPayload issuer now p) with _ | e
    · simp [hkk, hr]
    · obtain ⟨c, hc, hce⟩ := runChecks_some_mem _ _ _ hr
      have hne := checks_not_binding v mn ov dbu dom verifyNow (issuedPayload issuer now p)
        hnofp c hc
      have he1 : e ≠ .bindingContextMissing := fun h => hne.1 (by rw [hce, h])
      have he2 : e ≠ .fingerprintMismatch := fun h => hne.2 (by rw [hce, h])
      simp [hkk, hr, he1, he2]
  · intro v payload k mn ov dbu dom now fp hk hjti hiat hexp hiss hmod hver hfp hfalsy
    rw [verify_reduces_to_binding v payload k mn ov dbu dom now hk hjti hiat hexp hiss hmod
      hver]
    have hb : bindingCheck dbu dom payload = some .bindingContextMissing := by
      rcases hfalsy with rfl | rfl
      · rcases dom with _ | d <;> simp [bindingCheck, hfp]
      · rcases dbu with _ | u <;> simp [bindingCheck, hfp]
    simp [runChecks, hb]

/-- Witness for claim C10: an issuance with an empty-string fingerprint, and
a bound payload verified with an empty-string domain. -/
theorem claim_C10_witness :
    ((issuedPayload "I" 1000
        ⟨"L7", "C1", "Acme", "payroll", ["18"], "perpetual", none, some ""⟩).instance_fingerprint =
      none ∧
      ∀ (v : LicenseVerifier) (mn ov : String) (dbu dom : Option String) (verifyNow : Int),
        verify_license v
            (.signed (issuedPayload "I" 1000
              ⟨"L7", "C1", "Acme", "payroll", ["18"], "perpetual", none, some ""⟩) 7)
            mn ov dbu dom verifyNow ≠ .error .bindingContextMissing ∧
        verify_license v
            (.signed (issuedPayload "I" 1000
              ⟨"L7", "C1", "Acme", "payroll", ["18"], "perpetual", none, some ""⟩) 7)
            mn ov dbu dom verifyNow ≠ .error .fingerprintMismatch) ∧
    verify_license ⟨7, "I"⟩
        (.signed ⟨some "x", some "I", some 5, none, none,
          some ⟨some "m", ["18"]⟩, none, some "sha256:ff"⟩ 7)
        "m" "18" (some "u") (some "") 10 = .error .bindingContextMissing :=
  ⟨claim_C10_empty_string_truthiness.1 7 "I" 1000
      ⟨"L7", "C1", "Acme", "payroll", ["18"], "perpetual", none, some ""⟩
      (.signed (issuedPayload "I" 1000
        ⟨"L7", "C1", "Acme", "payroll", ["18"], "perpetual", none, some ""⟩) 7)
      rfl rfl,
   claim_C10_empty_string_truthiness.2 ⟨7, "I"⟩
     ⟨some "x", some "I", some 5, none, none, some ⟨some "m", ["18"]⟩, none, some "sha256:ff"⟩
     7 "m" "18" (some "u") (some "") 10 "sha256:ff" rfl (by simp) (by simp) rfl rfl rfl
     (by decide) rfl (Or.inr rfl)⟩

/-- Claim C3, counterexample: `jwt.encode` does not canonicalize the claim
order before signing.  Reordering the keys of one and the same claim set (the
reversed field list is a permutation of the original) changes the serialized
JSON and with it the Ed25519 signing input, so the signature differs. -/
theorem claim_C3_counterexample :
    ((issuancePayloadFields "L1" "I" 0 "C" "N" "M" ["17"] "perpetual" none none).reverse.Perm
        (issuancePayloadFields "L1" "I" 0 "C" "N" "M" ["17"] "perpetual" none none)) ∧
    jwt_encode_sig 0
        ((issuancePayloadFields "L1" "I" 0 "C" "N" "M" ["17"] "perpetual" none none).reverse) ≠
      jwt_encode_sig 0
        (issuancePayloadFields "L1" "I" 0 "C" "N" "M" ["17"] "perpetual" none none) :=
  ⟨List.reverse_perm _, by decide⟩

/-- Claim C3 as amended: `issue_license` always serializes the claims in one
fixed construction order (jti, iss, iat, customer, module, license_type, exp,
instance_fingerprint), so the signature of an issued token is a function of
the claim set alone — two issuances whose claim dictionaries agree as
key-to-value maps sign identically — although the encoder itself is
order-sensitive and performs no canonicalization. -/
theorem claim_C3_fixed_order_signature
    (k : Nat) (lid iss cid cn mn lt lid2 iss2 cid2 cn2 mn2 lt2 : String)
    (iat iat2 : Int) (av av2 : List String) (e e2 : Option Int) (f f2 : Option String)
    (h : ∀ key, fieldLookup (issuancePayloadFields lid iss iat cid cn mn av lt e f) key =
        fieldLookup (issuancePayloadFields lid2 iss2 iat2 cid2 cn2 mn2 av2 lt2 e2 f2) key) :
    jwt_encode_sig k (issuancePayloadFields lid iss iat cid cn mn av lt e f) =
      jwt_encode_sig k (issuancePayloadFields lid2 iss2 iat2 cid2 cn2 mn2 av2 lt2 e2 f2) := by
  suffices hh : issuancePayloadFields lid iss iat cid cn mn av lt e f =
      issuancePayloadFields lid2 iss2 iat2 cid2 cn2 mn2 av2 lt2 e2 f2 by rw [hh]
  have h1 := h "jti"
  have h2 := h "iss"
  have h3 := h "iat"
  have h4 := h "customer"
  have h5 := h "module"
  have h6 := h "license_type"
  have h7 := h "exp"
  have h8 := h "instance_fingerprint"
  rcases e with _ | ev <;> rcases e2 with _ | ev2 <;>
    rcases f with _ | fv <;> rcases f2 with _ | fv2 <;>
    simp_all [issuancePayloadFields, fieldLookup]

/-- Witness for claim C3 as amended: two issuance claim dictionaries that
agree as maps sign identically. -/
theorem claim_C3_witness :
    jwt_encode_sig 0 (issuancePayloadFields "L1" "I" 0 "C" "N" "M" ["17"] "perpetual" none none) =
      jwt_encode_sig 0
        (issuancePayloadFields "L1" "I" 0 "C" "N" "M" ["17"] "perpetual" none none) :=
  claim_C3_fixed_order_signature 0 "L1" "I" "C" "N" "M" "perpetual" "L1" "I" "C" "N" "M"
    "perpetual" 0 0 ["17"] ["17"] none none none none (fun _ => rfl)
